import Mathlib

/-!
# Verification of the prompt-enhancement backend's quota and scoring core

Shallow embedding of `src/backend/app.py` (quota accounting, quality scoring,
fallback generation, and the `/generate` request pipeline), with theorems
settling the specification's claims about it.

Conventions of the embedding:
* Python strings are Lean `String`s; case folding, `str.split()`, `str.strip()`
  and substring membership are modelled on the underlying `List Char`.
* Calendar dates (ISO strings in the source, compared only for equality or
  order) are modelled as `Int` day numbers.
* A Firestore user document is a record of optional fields, mirroring that a
  document's dict may lack keys and that the source reads them with
  `.get(key, default)`; `set(..., merge=True)` is field-wise merge.
* Python `float` arithmetic in the score is modelled over `ℚ`; for the
  achievable values (multiples of 100/7 and 100/8) the float computation and
  rounding agree exactly with the rational one.
-/

/-- Python `str.lower()` restricted to the ASCII text this program handles. -/
def pyLower (s : String) : String := ⟨s.data.map Char.toLower⟩

/-- Python `str.upper()` restricted to the ASCII text this program handles. -/
def pyUpper (s : String) : String := ⟨s.data.map Char.toUpper⟩

/-- Python `str.strip()`: remove leading and trailing whitespace. -/
def pyStrip (s : String) : String :=
  ⟨((s.data.dropWhile Char.isWhitespace).reverse.dropWhile Char.isWhitespace).reverse⟩

/-- Count maximal non-whitespace runs in a character list; `inWord` records
whether the previous character was part of a word. -/
def countWordsAux : List Char → Bool → Nat
  | [], _ => 0
  | c :: rest, inWord =>
    if c.isWhitespace then countWordsAux rest false
    else (if inWord then 0 else 1) + countWordsAux rest true

/-- Python `len(s.split())`: number of whitespace-separated words. -/
def pyWordCount (s : String) : Nat := countWordsAux s.data false

/-- Does `hay` start with `needle`? -/
def beginsWith : List Char → List Char → Bool
  | [], _ => true
  | _ :: _, [] => false
  | a :: as, b :: bs => a = b && beginsWith as bs

/-- Does `hay` contain `needle` as a contiguous subsequence? -/
def containsList (needle : List Char) : List Char → Bool
  | [] => needle.isEmpty
  | c :: rest => beginsWith needle (c :: rest) || containsList needle rest

/-- Python `needle in prompt.lower()` for an (already lowercase) needle. -/
def containsKw (prompt : String) (needle : String) : Bool :=
  containsList needle.data ((pyLower prompt).data)

/-- Python `any(word in prompt.lower() for word in kws)`. -/
def anyKw (prompt : String) (kws : List String) : Bool :=
  kws.any (containsKw prompt)

/-- `round(x, 1)` on the score values this program produces (no representable
ties occur among multiples of 100/7 and 100/8, so half-even versus half-up is
immaterial): round `10 * q` to the nearest integer, divide by 10. -/
def roundTo1 (q : ℚ) : ℚ := (round (10 * q) : ℤ) / 10

/-- The `quality_indicators` dict built by `analyze_prompt_quality`
(app.py lines 719-743), as an insertion-ordered association list: seven base
indicators, then at most one type-specific indicator. -/
def quality_indicators (prompt : String) (prompt_type : String) : List (String × Bool) :=
  let word_count := pyWordCount prompt
  [("specificity", anyKw prompt ["specific", "detailed", "exact", "precise", "concrete"]),
   ("structure", anyKw prompt ["format", "structure", "section", "outline", "template"]),
   ("constraints", anyKw prompt ["must", "should", "require", "constraint", "limit"]),
   ("examples", containsKw prompt "example" || containsKw prompt "for instance"),
   ("tone_appropriate", anyKw prompt ["professional", "formal", "academic", "technical"]),
   ("has_objective", decide (word_count > 20) &&
      anyKw prompt ["objective", "goal", "purpose", "aim"]),
   ("appropriate_length", decide (50 ≤ word_count ∧ word_count ≤ 500))]
  ++ (if prompt_type = "image" then
        [("visual_elements", anyKw prompt ["lighting", "composition", "style", "angle", "resolution"])]
      else if prompt_type = "video" then
        [("temporal_elements", anyKw prompt ["movement", "sequence", "timing", "duration", "pace"])]
      else if prompt_type = "code" then
        [("technical_specs", anyKw prompt ["function", "input", "output", "test", "error"])]
      else [])

/-- Look an indicator up in the association list, `false` if absent (every key
the source consults is present whenever it is consulted). -/
def indGet (indicators : List (String × Bool)) (key : String) : Bool :=
  (indicators.lookup key).getD false

/-- `generate_recommendations` (app.py lines 757-779): conditional appends to
an initially empty list, in fixed source order. -/
def generate_recommendations (indicators : List (String × Bool)) (prompt_type : String) :
    List String :=
  (if !(indGet indicators "specificity") then
      ["Add more specific details and concrete requirements"] else [])
  ++ (if !(indGet indicators "structure") then
      ["Consider adding a clear structure or format specification"] else [])
  ++ (if !(indGet indicators "constraints") then
      ["Define constraints or limitations to guide the AI"] else [])
  ++ (if !(indGet indicators "examples") &&
        (prompt_type = "text" || prompt_type = "code" || prompt_type = "data") then
      ["Include examples to clarify expected output"] else [])
  ++ (if prompt_type = "image" && !(indGet indicators "visual_elements") then
      ["Add more visual details like lighting, composition, or style"] else [])
  ++ (if prompt_type = "video" && !(indGet indicators "temporal_elements") then
      ["Include temporal elements like pacing, sequencing, or duration"] else [])

/-- Result of `analyze_prompt_quality`. -/
structure QualityReport where
  quality_score : ℚ
  indicators : List (String × Bool)
  word_count : Nat
  recommendations : List String
  deriving DecidableEq, Repr

/-- `analyze_prompt_quality` (app.py lines 714-755): score is
`round((sum of true indicators / number of indicators) * 100, 1)`. -/
def analyze_prompt_quality (prompt : String) (prompt_type : String) : QualityReport :=
  let inds := quality_indicators prompt prompt_type
  let score : Nat := inds.countP (fun p => p.2)
  let max_score : Nat := inds.length
  { quality_score := roundTo1 (((score : ℚ) / (max_score : ℚ)) * 100)
    indicators := inds
    word_count := pyWordCount prompt
    recommendations := generate_recommendations inds prompt_type }

/-- The `templates` dict of `generate_fallback_prompt` (app.py lines 785-790). -/
def fallback_templates : List (String × String) :=
  [("text", "OBJECTIVE: Clearly define the primary goal\nCONTEXT: Provide necessary background\nFORMAT: Specify output structure\nKEY REQUIREMENTS: List essential elements\nTONE: Define appropriate tone\nCONSTRAINTS: Set clear limitations\nEXPECTED OUTPUT: Describe what success looks like"),
   ("image", "SUBJECT: Main focus of the image\nACTION: What's happening\nENVIRONMENT: Where it takes place\nSTYLE: Artistic approach\nLIGHTING: Lighting conditions\nCOMPOSITION: Framing and angle\nMOOD: Emotional atmosphere\nTECHNICAL: Resolution and quality"),
   ("video", "SCENE: Main visual sequence\nMOVEMENT: Camera and subject motion\nSTYLE: Cinematic approach\nPACING: Timing and rhythm\nAUDIO: Sound elements\nLENGTH: Duration\nASPECT RATIO: Frame dimensions"),
   ("code", "FUNCTION: What the code should do\nINPUT: Required inputs\nOUTPUT: Expected outputs\nCONSTRAINTS: Technical limitations\nERROR HANDLING: How to handle issues\nTESTING: Verification requirements\nDOCUMENTATION: Code documentation needs")]

/-- The fixed header line of a fallback prompt. -/
def fallback_header (user_input : String) (prompt_type : String) : String :=
  "Professional " ++ pyUpper prompt_type ++ " Prompt for: " ++ user_input ++ "\n\n"

/-- `generate_fallback_prompt` (app.py lines 781-792):
`base_prompt + templates.get(prompt_type, templates["text"])`. -/
def generate_fallback_prompt (user_input : String) (prompt_type : String) : String :=
  fallback_header user_input prompt_type ++
    ((fallback_templates.lookup prompt_type).getD
      ((fallback_templates.lookup "text").getD ""))

/-- A document in the `users` collection. Fields the source reads with
`.get(key, default)`; `none` models an absent key. Dates are day numbers. -/
structure UserDoc where
  total_prompts : Option Nat := none
  prompts_today : Option Nat := none
  last_reset_date : Option Int := none
  daily_limit : Option Nat := none
  deriving DecidableEq, Repr

/-- A user document with no fields set. -/
def UserDoc.empty : UserDoc := {}

/-- The initialization dict of `update_prompt_usage_stats` (app.py lines
148-153) used when the user document does not exist. -/
def initDoc (today : Int) : UserDoc :=
  { total_prompts := some 0, prompts_today := some 0, last_reset_date := some today }

/-- The daily-reset step of `update_prompt_usage_stats` (app.py lines 155-159):
if `last_reset_date != today` (also when the key is absent), zero
`prompts_today` and stamp `last_reset_date := today`; otherwise unchanged. -/
def applyRollover (d : UserDoc) (today : Int) : UserDoc :=
  if d.last_reset_date ≠ some today then
    { d with prompts_today := some 0, last_reset_date := some today }
  else d

/-- The increment step of `update_prompt_usage_stats` (app.py lines 161-164):
`total_prompts` and `prompts_today` each become their `.get(_, 0)` value
plus one. -/
def incrementCounts (d : UserDoc) : UserDoc :=
  { d with total_prompts := some (d.total_prompts.getD 0 + 1)
           prompts_today := some (d.prompts_today.getD 0 + 1) }

/-- Firestore `set(data, merge=True)`: fields present in `new` overwrite,
fields absent in `new` keep the stored value. -/
def mergeDoc (old new : UserDoc) : UserDoc :=
  { total_prompts := new.total_prompts <|> old.total_prompts
    prompts_today := new.prompts_today <|> old.prompts_today
    last_reset_date := new.last_reset_date <|> old.last_reset_date
    daily_limit := new.daily_limit <|> old.daily_limit }

/-- `update_prompt_usage_stats` (app.py lines 134-171) run to completion with
no interference: read the document (or the init dict), apply the daily reset,
increment both counts, merge-write the result back. -/
def update_prompt_usage_stats (store : Option UserDoc) (today : Int) : Option UserDoc :=
  let current_data := store.getD (initDoc today)
  let updated := incrementCounts (applyRollover current_data today)
  some (mergeDoc (store.getD UserDoc.empty) updated)

/-! ## Interleaving model of concurrent `update_prompt_usage_stats` calls

Each call is two atomic phases separated by awaited executor hops: a read
phase (fetch the document, compute the rolled-over, incremented dict locally)
and a write phase (merge-write the local dict). A schedule says which call
moves next; concurrent requests interleave these phases arbitrarily. -/

/-- Progress of one in-flight `update_prompt_usage_stats` call. -/
inductive OpState
  | toRead
  | toWrite (localDoc : UserDoc)
  | finished
  deriving DecidableEq, Repr

/-- One atomic phase of one call against the shared document. -/
def stepOp (today : Int) (store : Option UserDoc) :
    OpState → Option UserDoc × OpState
  | .toRead =>
    let current_data := store.getD (initDoc today)
    (store, .toWrite (incrementCounts (applyRollover current_data today)))
  | .toWrite d => (some (mergeDoc (store.getD UserDoc.empty) d), .finished)
  | .finished => (store, .finished)

/-- Run a schedule: each entry names the call (by index) that takes its next
atomic phase. -/
def runSched (today : Int) : List Nat → Option UserDoc × List OpState →
    Option UserDoc × List OpState
  | [], s => s
  | i :: rest, (store, ops) =>
    match ops[i]? with
    | none => runSched today rest (store, ops)
    | some op =>
      let (store', op') := stepOp today store op
      runSched today rest (store', ops.set i op')

/-! ## The `/generate` request pipeline -/

/-- What this request's view of the Firestore `users` document is:
Firebase never initialized (`firebase_initialized`/`db` falsy), the
`document(user_id).get()` call raises, or the read succeeds (document present
or absent). -/
inductive StoreView
  | uninitialized
  | readFails
  | ready (doc : Option UserDoc)
  deriving DecidableEq, Repr

/-- Outcome of the inline quota gate in `generate` (app.py lines 326-342).
`raises` records that the unguarded `get()` threw, aborting the handler. -/
inductive CheckOutcome
  | proceed
  | deny (limit used : Nat)
  | raises
  deriving DecidableEq, Repr

/-- The quota gate of `generate` for an authenticated user: skipped when
Firebase is uninitialized or the document is absent; otherwise denies iff
`prompts_today >= daily_limit`, with defaults 0 and 100. No rollover is
consulted here. -/
def quota_check : StoreView → CheckOutcome
  | .uninitialized => .proceed
  | .readFails => .raises
  | .ready none => .proceed
  | .ready (some user_data) =>
    let daily_limit := user_data.daily_limit.getD 100
    let prompts_today := user_data.prompts_today.getD 0
    if prompts_today ≥ daily_limit then .deny daily_limit prompts_today else .proceed

/-- Outcome of the external `model.generate_content` call, treated as opaque:
it yields text or raises. -/
inductive GenResult
  | ok (text : String)
  | failed (msg : String)
  deriving DecidableEq, Repr

/-- The JSON body shapes `generate` can answer with. -/
inductive ResponseBody
  | emptyInput
  | limitReached (limit used : Nat)
  | success (professional_prompt prompt_type complexity : String)
      (quality_metrics : QualityReport) (prompt_saved authenticated : Bool)
  | genError (error fallback_prompt : String)
  | serverError
  deriving DecidableEq, Repr

/-- An HTTP response: status code and JSON body. `serverError` with status 500
is the framework's answer to an exception that escapes the handler. -/
structure HttpResponse where
  status : Nat
  body : ResponseBody
  deriving DecidableEq, Repr

/-- What one `/generate` request did: the response, the resulting view of the
user's counter document, and how many generation events were persisted to the
`prompts` collection. -/
structure RouteResult where
  response : HttpResponse
  store : StoreView
  events_persisted : Nat
  deriving DecidableEq, Repr

/-- Effect of `update_prompt_usage_stats` on the store as this request sees
it: skipped when Firebase is uninitialized; its internal `try/except` swallows
a read failure leaving the store unchanged; otherwise the full
read-rollover-increment-write cycle runs. -/
def storeAfterUpdate (store : StoreView) (today : Int) : StoreView :=
  match store with
  | .uninitialized => .uninitialized
  | .readFails => .readFails
  | .ready doc => .ready (update_prompt_usage_stats doc today)

/-- `save_prompt_to_firestore` returns a document id exactly when Firebase is
initialized and the write goes through. -/
def prompt_saved : StoreView → Bool
  | .ready _ => true
  | _ => false

/-- The part of `generate` inside its `try` block (app.py lines 354-415):
call the model; on success score, persist (for authenticated users), answer
200; on failure answer 500 with the fallback prompt in the body. -/
def generation_phase (authenticated : Bool) (store : StoreView) (today : Int)
    (gen : GenResult) (user_input prompt_type complexity : String) : RouteResult :=
  match gen with
  | .failed msg =>
    ⟨⟨500, .genError msg (generate_fallback_prompt user_input prompt_type)⟩, store, 0⟩
  | .ok raw_text =>
    let enhanced_prompt := pyStrip raw_text
    let quality_metrics := analyze_prompt_quality enhanced_prompt prompt_type
    if authenticated then
      ⟨⟨200, .success enhanced_prompt prompt_type complexity quality_metrics
          (prompt_saved store) true⟩,
        storeAfterUpdate store today,
        if prompt_saved store then 1 else 0⟩
    else
      ⟨⟨200, .success enhanced_prompt prompt_type complexity quality_metrics false false⟩,
        store, 0⟩

/-- The `/generate` handler (app.py lines 310-415). `user` is the decoded
identity from `optional_auth` (`none` for guests); `gen` the opaque outcome of
the model call; inputs are the raw request fields, stripped and lowercased as
the handler does. The quota gate runs only for authenticated users, before the
`try` block, so its `get()` raising escapes the handler as a 500. -/
def generate (user : Option String) (store : StoreView) (today : Int)
    (gen : GenResult) (raw_prompt raw_type complexity : String) : RouteResult :=
  let user_input := pyStrip raw_prompt
  let prompt_type := pyLower raw_type
  if user_input = "" then ⟨⟨400, .emptyInput⟩, store, 0⟩
  else
    match user with
    | some _ =>
      match quota_check store with
      | .raises => ⟨⟨500, .serverError⟩, store, 0⟩
      | .deny limit used => ⟨⟨429, .limitReached limit used⟩, store, 0⟩
      | .proceed => generation_phase true store today gen user_input prompt_type complexity
    | none => generation_phase false store today gen user_input prompt_type complexity

/-- `templates["text"]`, the default body `generate_fallback_prompt` falls
back to for unknown types. -/
def text_template : String := (fallback_templates.lookup "text").getD ""

/-- `n` copies of the word `a` separated by single spaces, as characters. -/
def sepWords : Nat → List Char
  | 0 => []
  | 1 => ['a']
  | n + 2 => 'a' :: ' ' :: sepWords (n + 1)

/-- A reference text of exactly `n` whitespace-separated words. -/
def mkWords (n : Nat) : String := ⟨sepWords n⟩

/-- A fresh counter document: 0 of 100 used in the window that started on
day 0. -/
def freshDoc : UserDoc :=
  { total_prompts := some 0, prompts_today := some 0,
    last_reset_date := some 0, daily_limit := some 100 }

/-- A counter document at its limit: 100 of 100 used in the window that
started on day 0. -/
def fullWindowDoc : UserDoc :=
  { total_prompts := some 100, prompts_today := some 100,
    last_reset_date := some 0, daily_limit := some 100 }

/-! ## General lemmas -/

theorem countWordsAux_sepWords : ∀ n, countWordsAux (sepWords n) false = n
  | 0 => rfl
  | 1 => rfl
  | n + 2 => by
    have ih := countWordsAux_sepWords (n + 1)
    show countWordsAux ('a' :: ' ' :: sepWords (n + 1)) false = n + 2
    simp [countWordsAux, show 'a'.isWhitespace = false from by decide,
      show ' '.isWhitespace = true from by decide, ih]
    omega

theorem pyWordCount_mkWords (n : Nat) : pyWordCount (mkWords n) = n :=
  countWordsAux_sepWords n

set_option maxRecDepth 8000

/-! ## Claim theorems -/

/-- C7: the `appropriate_length` indicator is true iff the whitespace word
count is between 50 and 500 inclusive; in particular a 49-word text scores
false, a 50-word text true, a 500-word text true, and a 501-word text false,
for every prompt type. -/
theorem C7_appropriate_length_boundary :
    (∀ prompt prompt_type : String,
      indGet (quality_indicators prompt prompt_type) "appropriate_length" =
        decide (50 ≤ pyWordCount prompt ∧ pyWordCount prompt ≤ 500)) ∧
    (∀ prompt_type : String,
      indGet (quality_indicators (mkWords 49) prompt_type) "appropriate_length" = false) ∧
    (∀ prompt_type : String,
      indGet (quality_indicators (mkWords 50) prompt_type) "appropriate_length" = true) ∧
    (∀ prompt_type : String,
      indGet (quality_indicators (mkWords 500) prompt_type) "appropriate_length" = true) ∧
    (∀ prompt_type : String,
      indGet (quality_indicators (mkWords 501) prompt_type) "appropriate_length" = false) := by
  have hgen : ∀ prompt prompt_type : String,
      indGet (quality_indicators prompt prompt_type) "appropriate_length" =
        decide (50 ≤ pyWordCount prompt ∧ pyWordCount prompt ≤ 500) :=
    fun _ _ => rfl
  refine ⟨hgen, fun t => ?_, fun t => ?_, fun t => ?_, fun t => ?_⟩ <;>
    rw [hgen, pyWordCount_mkWords] <;> decide

/-- C8: `applyRollover` is idempotent in `today` (the second application is a
no-op), and with any `today` strictly after the stored window start it resets
`prompts_today` to 0 no matter how many days elapsed. -/
theorem C8_rollover_idempotent_reset (d : UserDoc) (today : Int) :
    applyRollover (applyRollover d today) today = applyRollover d today ∧
    (∀ s : Int, d.last_reset_date = some s → s < today →
      (applyRollover d today).prompts_today = some 0) := by
  constructor
  · unfold applyRollover
    by_cases h : d.last_reset_date = some today <;> simp [h]
  · intro s hs hlt
    have hne : d.last_reset_date ≠ some today := by
      rw [hs]
      intro he
      rw [Option.some_inj] at he
      omega
    simp [applyRollover, hne]

/-- Witness for C8 at a concrete counter: window started on day 0, rolled
over on day 1. -/
theorem C8_rollover_idempotent_reset_witness :
    (applyRollover (applyRollover ⟨some 5, some 7, some 0, none⟩ 1) 1 =
      applyRollover ⟨some 5, some 7, some 0, none⟩ 1) ∧
    (applyRollover ⟨some 5, some 7, some 0, none⟩ 1).prompts_today = some 0 :=
  ⟨(C8_rollover_idempotent_reset ⟨some 5, some 7, some 0, none⟩ 1).1,
    (C8_rollover_idempotent_reset ⟨some 5, some 7, some 0, none⟩ 1).2 0 rfl (by decide)⟩

/-- C9: on the empty text the scorer still returns a well-defined report for
every prompt type: word count 0, every indicator false, score 0. -/
theorem C9_empty_text_report (prompt_type : String) :
    (analyze_prompt_quality "" prompt_type).word_count = 0 ∧
    (analyze_prompt_quality "" prompt_type).indicators.all (fun p => !p.2) = true ∧
    (analyze_prompt_quality "" prompt_type).quality_score = 0 := by
  have hall : (quality_indicators "" prompt_type).all (fun p => !p.2) = true := by
    unfold quality_indicators
    split_ifs <;> decide
  have hcount : (quality_indicators "" prompt_type).countP (fun p => p.2) = 0 := by
    rw [List.countP_eq_zero]
    intro a ha
    have := List.all_eq_true.mp hall a ha
    simpa using this
  refine ⟨rfl, hall, ?_⟩
  show roundTo1 ((((quality_indicators "" prompt_type).countP (fun p => p.2) : ℚ) /
      ((quality_indicators "" prompt_type).length : ℚ)) * 100) = 0
  rw [hcount]
  norm_num [roundTo1]

/-- C10: `generate_fallback_prompt` is total over all type strings: the result
always begins with the fixed header naming the upper-cased type and the user
input, and outside {text, image, video, code} the body is the text template. -/
theorem C10_fallback_total (user_input prompt_type : String) :
    (∃ body, generate_fallback_prompt user_input prompt_type =
      fallback_header user_input prompt_type ++ body) ∧
    (prompt_type ∉ ["text", "image", "video", "code"] →
      generate_fallback_prompt user_input prompt_type =
        fallback_header user_input prompt_type ++ text_template) := by
  constructor
  · exact ⟨_, rfl⟩
  · intro h
    have h1 : (prompt_type == "text") = false :=
      beq_eq_false_iff_ne.mpr (fun e => h (by simp [e]))
    have h2 : (prompt_type == "image") = false :=
      beq_eq_false_iff_ne.mpr (fun e => h (by simp [e]))
    have h3 : (prompt_type == "video") = false :=
      beq_eq_false_iff_ne.mpr (fun e => h (by simp [e]))
    have h4 : (prompt_type == "code") = false :=
      beq_eq_false_iff_ne.mpr (fun e => h (by simp [e]))
    unfold generate_fallback_prompt text_template fallback_templates
    simp [List.lookup, h1, h2, h3, h4]

/-- Witness for C10 at the unhandled type `audio`. -/
theorem C10_fallback_total_witness :
    (∃ body, generate_fallback_prompt "x" "audio" =
      fallback_header "x" "audio" ++ body) ∧
    generate_fallback_prompt "x" "audio" = fallback_header "x" "audio" ++ text_template :=
  ⟨(C10_fallback_total "x" "audio").1, (C10_fallback_total "x" "audio").2 (by decide)⟩

/-- C6: the quality score is 100 times the count of true indicators divided by
the indicator count, rounded to one decimal; the battery is the seven named
base indicators (with `has_objective` also requiring word count > 20) plus
exactly one type-specific indicator for image, video and code, so the
denominator is 8 for those types and 7 otherwise. -/
theorem C6_score_formula (prompt prompt_type : String) :
    (analyze_prompt_quality prompt prompt_type).quality_score =
      roundTo1 (100 * ((quality_indicators prompt prompt_type).countP (fun p => p.2) : ℚ) /
        ((quality_indicators prompt prompt_type).length : ℚ)) ∧
    (quality_indicators prompt prompt_type).map Prod.fst =
      ["specificity", "structure", "constraints", "examples", "tone_appropriate",
        "has_objective", "appropriate_length"] ++
        (if prompt_type = "image" then ["visual_elements"]
         else if prompt_type = "video" then ["temporal_elements"]
         else if prompt_type = "code" then ["technical_specs"]
         else []) ∧
    (quality_indicators prompt prompt_type).length =
      (if prompt_type = "image" ∨ prompt_type = "video" ∨ prompt_type = "code"
        then 8 else 7) ∧
    indGet (quality_indicators prompt prompt_type) "has_objective" =
      (decide (pyWordCount prompt > 20) &&
        anyKw prompt ["objective", "goal", "purpose", "aim"]) := by
  refine ⟨?_, ?_, ?_, rfl⟩
  · show roundTo1 ((((quality_indicators prompt prompt_type).countP (fun p => p.2) : ℚ) /
        ((quality_indicators prompt prompt_type).length : ℚ)) * 100) = _
    congr 1
    ring
  · unfold quality_indicators
    split_ifs <;> simp
  · unfold quality_indicators
    split_ifs with h1 h2 h3 <;> simp_all

/-- C1: refuted as stated — the read-modify-write cycles of
`update_prompt_usage_stats` are not atomic. With the user's counter at 0, two
concurrent consume operations on the same day whose phases interleave as
read-read-write-write both read 0 and both write 1: the persisted
`prompts_today` ends at 1, not the initial value plus 2. One update is lost. -/
theorem C1_lost_update_interleaving :
    (((runSched 0 [0, 1, 0, 1]
        (some freshDoc, [OpState.toRead, OpState.toRead])).1.getD
          UserDoc.empty).prompts_today = some 1) ∧
    some 1 ≠ some (0 + 2 : Nat) := by
  decide

/-- The same two operations run without interleaving (each completes before
the next starts) do persist both increments — the loss in
`C1_lost_update_interleaving` is caused purely by the interleaving. -/
theorem update_sequential_two_ops :
    (((runSched 0 [0, 0, 1, 1]
        (some freshDoc, [OpState.toRead, OpState.toRead])).1.getD
          UserDoc.empty).prompts_today = some (0 + 2 : Nat)) := by
  decide

/-- C2: refuted as stated — the quota gate in `generate` compares the stored
`prompts_today` against `daily_limit` without applying the daily rollover (it
does not consult the date at all). A user whose window started yesterday
(day 0) with `prompts_today = daily_limit = 100` is answered 429 today
(day 1), although `applyRollover` — which the code runs only on the increment
path — would have reset the count to 0. Since the increment path is the only
place the window resets and it is unreachable while the gate denies, the user
is locked out permanently. -/
theorem C2_stale_window_denied :
    (generate (some "u") (.ready (some fullWindowDoc)) 1 (.ok "out")
        "hi" "text" "detailed" =
      ⟨⟨429, .limitReached 100 100⟩, .ready (some fullWindowDoc), 0⟩) ∧
    (applyRollover fullWindowDoc 1).prompts_today = some 0 := by
  exact ⟨rfl, rfl⟩

/-- C3 counterexample: when the user-document read itself fails, the request
is not treated as under limit — the exception escapes the handler and the
framework answers 500, whereas proceeding past the gate with the same inputs
would have answered 200. -/
theorem C3_counterexample_read_failure :
    (generate (some "u") .readFails 0 (.ok "out") "hi" "text" "detailed").response
      = ⟨500, .serverError⟩ ∧
    (generation_phase true .readFails 0 (.ok "out") "hi" "text" "detailed").response.status
      = 200 ∧
    (500 : Nat) ≠ 200 := by
  refine ⟨rfl, rfl, by decide⟩

/-- C3 amended: the quota check fails open when Firebase is uninitialized or
the user's document is absent (the gate is skipped and the request proceeds to
a 200 success), but a failing document read raises and the request ends as a
500 server error instead of proceeding. -/
theorem C3_amended_fail_open (uid : String) (today : Int)
    (text raw_prompt raw_type complexity : String) (h : pyStrip raw_prompt ≠ "") :
    (generate (some uid) .uninitialized today (.ok text)
      raw_prompt raw_type complexity).response.status = 200 ∧
    (generate (some uid) (.ready none) today (.ok text)
      raw_prompt raw_type complexity).response.status = 200 ∧
    (generate (some uid) .readFails today (.ok text)
      raw_prompt raw_type complexity).response = ⟨500, .serverError⟩ := by
  unfold generate
  simp [h, quota_check, generation_phase]

/-- Witness for C3 amended at concrete inputs. -/
theorem C3_amended_fail_open_witness :
    (generate (some "u") .uninitialized 0 (.ok "out")
      "hi" "text" "detailed").response.status = 200 ∧
    (generate (some "u") (.ready none) 0 (.ok "out")
      "hi" "text" "detailed").response.status = 200 ∧
    (generate (some "u") .readFails 0 (.ok "out")
      "hi" "text" "detailed").response = ⟨500, .serverError⟩ :=
  C3_amended_fail_open "u" 0 "out" "hi" "text" "detailed" (by decide)

/-- C5 counterexample: when the model call fails the handler answers with
HTTP status 500, not success-shaped output — it is an error response that
happens to carry the fallback in its body. -/
theorem C5_counterexample_error_status :
    (generate (some "u") (.ready (some freshDoc)) 0 (.failed "boom")
      "hi" "image" "detailed").response.status = 500 ∧
    (500 : Nat) ≠ 200 := by
  exact ⟨rfl, by decide⟩

/-- C5 amended: on generation failure the pipeline consumes no quota and
persists no event — the store is untouched — and answers HTTP 500 with a body
carrying the error indicator alongside the deterministic per-type fallback
template, for authenticated requests that passed the gate and for guests
alike. -/
theorem C5_amended_fallback (uid : String) (store : StoreView) (today : Int)
    (msg raw_prompt raw_type complexity : String)
    (h : pyStrip raw_prompt ≠ "") (hc : quota_check store = .proceed) :
    (generate (some uid) store today (.failed msg) raw_prompt raw_type complexity =
      ⟨⟨500, .genError msg
          (generate_fallback_prompt (pyStrip raw_prompt) (pyLower raw_type))⟩,
        store, 0⟩) ∧
    (generate none store today (.failed msg) raw_prompt raw_type complexity =
      ⟨⟨500, .genError msg
          (generate_fallback_prompt (pyStrip raw_prompt) (pyLower raw_type))⟩,
        store, 0⟩) := by
  unfold generate
  simp [h, hc, generation_phase]

/-- Witness for C5 amended: fresh counter, failing model call, image type. -/
theorem C5_amended_fallback_witness :
    (generate (some "u") (.ready (some freshDoc)) 0 (.failed "boom")
        "hi" "image" "detailed" =
      ⟨⟨500, .genError "boom" (generate_fallback_prompt (pyStrip "hi") (pyLower "image"))⟩,
        .ready (some freshDoc), 0⟩) ∧
    (generate none (.ready (some freshDoc)) 0 (.failed "boom")
        "hi" "image" "detailed" =
      ⟨⟨500, .genError "boom" (generate_fallback_prompt (pyStrip "hi") (pyLower "image"))⟩,
        .ready (some freshDoc), 0⟩) :=
  C5_amended_fallback "u" (.ready (some freshDoc)) 0 "boom" "hi" "image" "detailed"
    (by decide) (by decide)

/-! ## Helper lemmas for the recommendation list -/

theorem mem_ite_singleton_append {α : Type} [DecidableEq α] (a x : α) (c : Bool)
    (l : List α) : a ∈ (if c then [x] else []) ++ l ↔ ((c = true ∧ a = x) ∨ a ∈ l) := by
  cases c <;> simp

theorem mem_ite_singleton {α : Type} [DecidableEq α] (a x : α) (c : Bool) :
    a ∈ (if c then [x] else []) ↔ (c = true ∧ a = x) := by
  cases c <;> simp

theorem sublist_ite_singleton_append {α : Type} (x : α) (c : Bool) (l L : List α)
    (h : l.Sublist L) : ((if c then [x] else []) ++ l).Sublist (x :: L) := by
  cases c
  · simpa using h.cons x
  · simpa using h.cons₂ x

/-- C4 counterexample: on the empty text with type `text`, all seven
indicators are false but only four advisories are produced — the false
indicators `tone_appropriate`, `has_objective` and `appropriate_length`
contribute no advisory string, so it is not the case that each false
indicator contributes exactly one. -/
theorem C4_counterexample_uncovered_indicators :
    (generate_recommendations (quality_indicators "" "text") "text" =
      ["Add more specific details and concrete requirements",
       "Consider adding a clear structure or format specification",
       "Define constraints or limitations to guide the AI",
       "Include examples to clarify expected output"]) ∧
    (quality_indicators "" "text").countP (fun p => !p.2) = 7 ∧
    indGet (quality_indicators "" "text") "tone_appropriate" = false ∧
    (4 : Nat) ≠ 7 := by
  decide

/-- C4 amended: the recommendation list is a sublist of a fixed six-advisory
priority list — so its order is the fixed priority order and each advisory
appears at most once — and an advisory is present exactly when its rule
fires: specificity, structure and constraints advisories when the indicator
is false; the examples advisory when the indicator is false and the type is
text, code or data; the visual advisory for type image and the temporal
advisory for type video when the respective indicator is false. The
indicators `tone_appropriate`, `has_objective`, `appropriate_length` and
`technical_specs` contribute no advisory. -/
theorem C4_amended_rule_table (prompt prompt_type : String) :
    (analyze_prompt_quality prompt prompt_type).recommendations.Sublist
      ["Add more specific details and concrete requirements",
       "Consider adding a clear structure or format specification",
       "Define constraints or limitations to guide the AI",
       "Include examples to clarify expected output",
       "Add more visual details like lighting, composition, or style",
       "Include temporal elements like pacing, sequencing, or duration"] ∧
    ("Add more specific details and concrete requirements" ∈
        (analyze_prompt_quality prompt prompt_type).recommendations ↔
      indGet (quality_indicators prompt prompt_type) "specificity" = false) ∧
    ("Consider adding a clear structure or format specification" ∈
        (analyze_prompt_quality prompt prompt_type).recommendations ↔
      indGet (quality_indicators prompt prompt_type) "structure" = false) ∧
    ("Define constraints or limitations to guide the AI" ∈
        (analyze_prompt_quality prompt prompt_type).recommendations ↔
      indGet (quality_indicators prompt prompt_type) "constraints" = false) ∧
    ("Include examples to clarify expected output" ∈
        (analyze_prompt_quality prompt prompt_type).recommendations ↔
      (indGet (quality_indicators prompt prompt_type) "examples" = false ∧
        (prompt_type = "text" ∨ prompt_type = "code" ∨ prompt_type = "data"))) ∧
    ("Add more visual details like lighting, composition, or style" ∈
        (analyze_prompt_quality prompt prompt_type).recommendations ↔
      (prompt_type = "image" ∧
        indGet (quality_indicators prompt prompt_type) "visual_elements" = false)) ∧
    ("Include temporal elements like pacing, sequencing, or duration" ∈
        (analyze_prompt_quality prompt prompt_type).recommendations ↔
      (prompt_type = "video" ∧
        indGet (quality_indicators prompt prompt_type) "temporal_elements" = false)) := by
  have hr : (analyze_prompt_quality prompt prompt_type).recommendations =
      generate_recommendations (quality_indicators prompt prompt_type) prompt_type := rfl
  rw [hr]
  unfold generate_recommendations
  refine ⟨?_, ?_, ?_, ?_, ?_, ?_, ?_⟩
  · simp only [List.append_assoc]
    refine sublist_ite_singleton_append _ _ _ _ ?_
    refine sublist_ite_singleton_append _ _ _ _ ?_
    refine sublist_ite_singleton_append _ _ _ _ ?_
    refine sublist_ite_singleton_append _ _ _ _ ?_
    refine sublist_ite_singleton_append _ _ _ _ ?_
    split_ifs <;> simp
  · simp [List.append_assoc, mem_ite_singleton_append, mem_ite_singleton,
      Bool.not_eq_true']
  · simp [List.append_assoc, mem_ite_singleton_append, mem_ite_singleton,
      Bool.not_eq_true']
  · simp [List.append_assoc, mem_ite_singleton_append, mem_ite_singleton,
      Bool.not_eq_true']
  · simp [List.append_assoc, mem_ite_singleton_append, mem_ite_singleton,
      Bool.not_eq_true']
    tauto
  · simp [List.append_assoc, mem_ite_singleton_append, mem_ite_singleton,
      Bool.not_eq_true']
  · simp [List.append_assoc, mem_ite_singleton_append, mem_ite_singleton,
      Bool.not_eq_true']
